import Mathlib

/-!
Verification development for `in_toto/verifylib.py` (supply-chain
verification engine).  The Python module's functions are shallowly
embedded as executable Lean definitions: Python dicts become
association lists (`List (String × _)`), Python lists become `List`,
exceptions become `Except VError`, and the external collaborators
(cryptographic signature checking, the inspection runner) become
function parameters.  All paths use `"/"` as separator (POSIX
`os.sep`), matching the model level of the specification.
-/

namespace InToto

/-- The kinds of exception verifylib can raise.  `nameError`,
`keyError`, `indexError` and `valueError` model the corresponding
Python interpreter-level exceptions that escape from the code
(e.g. use of an unbound variable raises `NameError`).
`authorization` models `AuthorizationError`, which the source *names*
at line 257 but never imports or defines, so the model never produces
it. -/
inductive VError where
  | signature
  | expired
  | threshold
  | ruleFormat
  | ruleVerification
  | badReturn
  | authorization
  | nameError
  | keyError
  | indexError
  | valueError
  | formatError
  deriving DecidableEq, Repr

/-- A Python value as found in a link's `byproducts` dict: either an
integer or a string.  (`bool` is a subtype of `int` in Python; the
integer constructor covers it.) -/
inductive PyVal where
  | int : Int → PyVal
  | str : String → PyVal
  deriving DecidableEq, Repr

/-- First-match association-list lookup: models Python `d[k]` /
`d.get(k)` on a dict with unique keys. -/
def dlookup {α : Type} (k : String) : List (String × α) → Option α
  | [] => none
  | (k', v) :: rest => if k' = k then some v else dlookup k rest

/-- A hash dictionary, hash-algorithm name → hex digest
(securesystemslib HASHDICT). -/
abbrev Digest := List (String × String)

/-- An artifact set: path → hash dictionary. -/
abbrev Artifacts := List (String × Digest)

/-- Python `==` on two hash dicts: same keys, same values
(order-insensitive). -/
def digestEq (a b : Digest) : Bool :=
  a.all (fun kv => dlookup kv.1 b == some kv.2) &&
  b.all (fun kv => dlookup kv.1 a == some kv.2)

/-- Python `==` on two artifact dicts (path → digest dict):
same paths, digest dicts equal as dicts. -/
def artifactsEq (a b : Artifacts) : Bool :=
  a.all (fun kv => match dlookup kv.1 b with
    | some d => digestEq kv.2 d
    | none => false) &&
  b.all (fun kv => match dlookup kv.1 a with
    | some d => digestEq kv.2 d
    | none => false)

/-! ### Glob matching (`fnmatch.fnmatch` on POSIX)

`fnmatch.translate` compiles a pattern to a regex: `*` matches any
character sequence, `?` one character, `[seq]` a character class with
ranges and `!` negation; an unterminated `[` is a literal.  We compile
the pattern to a token list and run a backtracking matcher.  Fuel
arguments bound the recursion; each step consumes at least one
pattern character (for `compileP`) resp. one pattern token or one
subject character (for `gmatch`), so the supplied fuel is never
exhausted. -/

/-- Membership of a character in a bracket-class body, with `a-z`
ranges (regex character-class semantics, as produced by
`fnmatch.translate`). -/
def setMatch (c : Char) : List Char → Bool
  | a :: '-' :: b :: rest => (a ≤ c && c ≤ b) || setMatch c rest
  | a :: rest => (a = c) || setMatch c rest
  | [] => false

/-- Scan a bracket-class body up to the closing `]`.  Returns the body
and the remaining pattern, or `none` when the class is unterminated. -/
def scanClass : List Char → Option (List Char × List Char)
  | [] => none
  | ']' :: r => some ([], r)
  | c :: r => (scanClass r).map (fun sr => (c :: sr.1, sr.2))

/-- Parse the part of a glob pattern following `[`: optional leading
`!` (negation), a `]` directly after that is a literal member of the
class. -/
def extractClass (ps : List Char) : Option (Bool × List Char × List Char) :=
  let (neg, ps1) := match ps with
    | '!' :: r => (true, r)
    | _ => (false, ps)
  match ps1 with
  | ']' :: r => (scanClass r).map (fun sr => (neg, ']' :: sr.1, sr.2))
  | _ => (scanClass ps1).map (fun sr => (neg, sr.1, sr.2))

/-- A compiled glob-pattern token. -/
inductive GTok where
  | star
  | anyChar
  | lit : Char → GTok
  | cls : Bool → List Char → GTok
  deriving DecidableEq, Repr

/-- Compile a glob pattern to tokens (fuelled; fuel `= ps.length`
suffices since every step consumes at least one character). -/
def compileP : Nat → List Char → List GTok
  | 0, _ => []
  | _ + 1, [] => []
  | fuel + 1, '*' :: ps => GTok.star :: compileP fuel ps
  | fuel + 1, '?' :: ps => GTok.anyChar :: compileP fuel ps
  | fuel + 1, '[' :: ps =>
    match extractClass ps with
    | none => GTok.lit '[' :: compileP fuel ps
    | some (neg, body, rest) => GTok.cls neg body :: compileP fuel rest
  | fuel + 1, c :: ps => GTok.lit c :: compileP fuel ps

/-- Backtracking matcher over compiled tokens (full-string match, as
`fnmatch.translate` anchors the regex).  Fuelled; fuel
`= ts.length + s.length + 1` suffices since every step consumes a
token or a character. -/
def gmatch : Nat → List GTok → List Char → Bool
  | 0, _, _ => false
  | _ + 1, [], [] => true
  | _ + 1, [], _ :: _ => false
  | fuel + 1, GTok.star :: ts, s =>
    gmatch fuel ts s ||
      (match s with
       | [] => false
       | _ :: s' => gmatch fuel (GTok.star :: ts) s')
  | fuel + 1, GTok.anyChar :: ts, s =>
    match s with
    | [] => false
    | _ :: s' => gmatch fuel ts s'
  | fuel + 1, GTok.lit c :: ts, s =>
    match s with
    | [] => false
    | c' :: s' => c = c' && gmatch fuel ts s'
  | fuel + 1, GTok.cls neg body :: ts, s =>
    match s with
    | [] => false
    | c :: s' => (if neg then !setMatch c body else setMatch c body) && gmatch fuel ts s'

/-- Python `fnmatch.fnmatch pat s` on POSIX (no case folding). -/
def fnmatchB (pat s : String) : Bool :=
  let ts := compileP pat.data.length pat.data
  gmatch (ts.length + s.data.length + 1) ts s.data

/-- Python `fnmatch.filter names pat`. -/
def fnfilter (names : List String) (pat : String) : List String :=
  names.filter (fun n => fnmatchB pat n)

/-! ### String helpers (character-based, like Python slicing) -/

/-- Python `s.startswith(pre)`. -/
def strStarts (pre s : String) : Bool :=
  pre.data.isPrefixOf s.data

/-- Python `s[n:]` (drop the first `n` characters). -/
def strDrop (n : Nat) (s : String) : String :=
  ⟨s.data.drop n⟩

/-- Python `list(set(a) - set(b))` on lists of strings: the distinct
elements of `a` that are not in `b`.  CPython's set iteration order is
hash-based and unspecified; the model fixes one representative order,
and only order-insensitive facts (membership, cardinality bounds) are
proved about it. -/
def pySetDiff (a b : List String) : List String :=
  (a.filter (fun x => !b.contains x)).dedup

/-! ### Data model -/

/-- A key record; the signature subsystem is external, so a key is
opaque and only its identity matters here. -/
abbrev Key := String

/-- Link metadata: one attestation of one step/inspection execution
(`in_toto.models.link.Link` as consumed by verifylib).  `linkType`
models the `_type` field (`"link"`, or `"layout"` for a sublayout). -/
structure Link where
  name : String
  command : List String
  materials : Artifacts
  products : Artifacts
  byproducts : List (String × PyVal)
  linkType : String
  deriving DecidableEq, Repr

/-- The rule kind, as found in the `type` field of the dict returned
by `in_toto.artifact_rules.unpack_rule`. -/
inductive RuleType where
  | matchT
  | allowT
  | disallowT
  | createT
  | deleteT
  | modifyT
  deriving DecidableEq, Repr

/-- The destination artifact kind of a MATCH rule
(`WITH MATERIALS` / `WITH PRODUCTS`). -/
inductive DestType where
  | materials
  | products
  deriving DecidableEq, Repr

/-- Modelled from the spec: the dict produced by
`in_toto.artifact_rules.unpack_rule` (that module is not part of the
given sources).  Per the grammar of §4.1 it carries the rule type, the
glob `pattern`, optional source/destination path prefixes (`""` models
the Python-falsy absent prefix), and for MATCH rules the destination
artifact kind and step name.  `unpack_rule` validates the token list,
so evaluators only see well-formed records; in particular the
destination kind is always `materials` or `products`. -/
structure RuleData where
  rtype : RuleType
  pattern : String
  src_pfx : String
  dst_pfx : String
  dest_type : DestType
  dest_name : String
  deriving DecidableEq, Repr

/-- A step of the layout (fields consumed by verifylib). -/
structure Step where
  name : String
  pubkeys : List String
  threshold : Nat
  expected_command : List String
  expected_materials : List RuleData
  expected_products : List RuleData
  deriving DecidableEq, Repr

/-- An inspection of the layout (fields consumed by verifylib). -/
structure Inspection where
  name : String
  run : List String
  expected_materials : List RuleData
  expected_products : List RuleData
  deriving DecidableEq, Repr

/-- The layout (fields consumed by verifylib). -/
structure Layout where
  keys : List (String × Key)
  steps : List Step
  inspect : List Inspection
  expires : String
  deriving DecidableEq, Repr

/-! ### Artifact rule evaluators (verifylib lines 337–768) -/

/-- Destination artifact selection of `verify_match_rule`
(lines 441–444): `dest_link.materials` or `dest_link.products`. -/
def destArtifacts (dt : DestType) (l : Link) : Artifacts :=
  match dt with
  | .materials => l.materials
  | .products => l.products

/-- Re-concatenation of the source prefix (lines 468–471):
`source_prefix + os.sep + path` when a prefix was given. -/
def fullSrc (rd : RuleData) (p : String) : String :=
  if rd.src_pfx ≠ "" then rd.src_pfx ++ "/" ++ p else p

/-- Concatenation of the destination prefix (lines 476–479). -/
def fullDst (rd : RuleData) (p : String) : String :=
  if rd.dst_pfx ≠ "" then rd.dst_pfx ++ "/" ++ p else p

/-- Filter I and Filter II of `verify_match_rule` (lines 446–461):
keep queued paths starting with `source_prefix + os.sep`, strip the
prefix, then apply the glob pattern to the remaining paths. -/
def relPaths (rd : RuleData) (queue : List String) : List String :=
  let f1 := if rd.src_pfx ≠ "" then
      (queue.filter (fun x => strStarts (rd.src_pfx ++ "/") x)).map
        (fun x => strDrop (rd.src_pfx.length + 1) x)
    else queue
  fnfilter f1 rd.pattern

/-- The per-path loop of `verify_match_rule` (lines 464–503): look up
the source artifact (a missing key is a Python `KeyError`, see the
comment at line 481), look up the destination artifact
(absent → `RuleVerficationError`), compare digests
(different → `RuleVerficationError`), and remove the full source path
from the queue (`list.remove` removes the first occurrence and raises
`ValueError` when the element is absent). -/
def matchLoop (rd : RuleData) (src dst : Artifacts) :
    List String → List String → Except VError (List String)
  | [], q => .ok q
  | p :: ps, q =>
    match dlookup (fullSrc rd p) src with
    | none => .error .keyError
    | some sa =>
      match dlookup (fullDst rd p) dst with
      | none => .error .ruleVerification
      | some da =>
        if digestEq sa da then
          if fullSrc rd p ∈ q then
            matchLoop rd src dst ps (q.erase (fullSrc rd p))
          else .error .valueError
        else .error .ruleVerification

/-- Model of `verify_match_rule` (lines 428–505). -/
def verify_match_rule (rd : RuleData) (source_artifacts_queue : List String)
    (source_artifacts : Artifacts) (links : List (String × Link)) :
    Except VError (List String) :=
  match dlookup rd.dest_name links with
  | none => .error .ruleVerification
  | some dest_link =>
    matchLoop rd source_artifacts (destArtifacts rd.dest_type dest_link)
      (relPaths rd source_artifacts_queue) source_artifacts_queue

/-- The success condition of one iteration of the match loop for a
relative path `p`: the source artifact exists, the destination
artifact exists, and their digests agree (used to state theorems
about `verify_match_rule`). -/
def destCheckB (rd : RuleData) (src dst : Artifacts) (p : String) : Bool :=
  match dlookup (fullSrc rd p) src, dlookup (fullDst rd p) dst with
  | some sa, some da => digestEq sa da
  | _, _ => false

/-- Model of `verify_create_rule` (lines 508–563): a matched product found in
the materials queue fails; otherwise the matched products are removed
from the products queue via `list(set(...) - set(...))`. -/
def verify_create_rule (rd : RuleData)
    (source_materials_queue source_products_queue : List String) :
    Except VError (List String) :=
  let matched := fnfilter source_products_queue rd.pattern
  if matched.any (fun m => source_materials_queue.contains m) then
    .error .ruleVerification
  else .ok (pySetDiff source_products_queue matched)

/-- Model of `verify_delete_rule` (lines 566–620): symmetric to CREATE on the
materials queue. -/
def verify_delete_rule (rd : RuleData)
    (source_materials_queue source_products_queue : List String) :
    Except VError (List String) :=
  let matched := fnfilter source_materials_queue rd.pattern
  if matched.any (fun m => source_products_queue.contains m) then
    .error .ruleVerification
  else .ok (pySetDiff source_materials_queue matched)

/-- The hash-comparison loop of `verify_modify_rule` (lines 687–693):
for each matched path, equal material and product digests fail; a path
missing from either artifact dict is a Python `KeyError`.  (Python
iterates the matched *set* in unspecified order; the order only
affects which of the two error kinds fires first on pathological
inputs, never success.) -/
def modifyHashLoop (source_materials source_products : Artifacts) :
    List String → Except VError Unit
  | [] => .ok ()
  | p :: ps =>
    match dlookup p source_materials, dlookup p source_products with
    | some ma, some pa =>
      if digestEq ma pa then .error .ruleVerification
      else modifyHashLoop source_materials source_products ps
    | _, _ => .error .keyError

/-- Model of `verify_modify_rule` (lines 623–696): the matched material and
product path sets must coincide, every matched path must have
different material and product digests, and the matched paths are
removed from both queues. -/
def verify_modify_rule (rd : RuleData)
    (source_materials_queue source_products_queue : List String)
    (source_materials source_products : Artifacts) :
    Except VError (List String × List String) := do
  let mm := fnfilter source_materials_queue rd.pattern
  let mp := fnfilter source_products_queue rd.pattern
  if mm.any (fun x => !mp.contains x) then .error .ruleVerification
  else if mp.any (fun x => !mm.contains x) then .error .ruleVerification
  else do
    let _ ← modifyHashLoop source_materials source_products mm
    .ok (pySetDiff source_materials_queue mm, pySetDiff source_products_queue mp)

/-- Model of `verify_allow_rule` (lines 699–733): never fails; removes matched
paths via `list(set(...) - set(...))`. -/
def verify_allow_rule (rd : RuleData) (source_artifacts_queue : List String) :
    List String :=
  pySetDiff source_artifacts_queue (fnfilter source_artifacts_queue rd.pattern)

/-- Model of `verify_disallow_rule` (lines 736–768): fails when the pattern
matches anything in the queue; never changes it. -/
def verify_disallow_rule (rd : RuleData) (source_artifacts_queue : List String) :
    Except VError Unit :=
  if (fnfilter source_artifacts_queue rd.pattern).isEmpty then .ok ()
  else .error .ruleVerification

/-! ### Item rule driver (`verify_item_rules`, lines 771–892)

The Python function juggles three queue variables:
`source_materials_queue`, `source_products_queue`, and the generic
`source_artifacts_queue`, which initially *is the same list object* as
the source-type queue.  `verify_match_rule` mutates the queue object
in place (`list.remove`), so while the alias holds, the specific queue
changes along with the generic one; `verify_allow_rule` returns a
fresh list, which detaches the generic queue from the specific one;
after CREATE/DELETE/MODIFY the code rebinds the generic queue to the
relevant specific queue.  `RQState.detached` records the detached
generic queue when the alias is broken (`none` = the generic queue is
the source-type queue object). -/

/-- The dispatch source: validated value of the `source_type`
argument. -/
inductive SType where
  | materials
  | products
  deriving DecidableEq, Repr

/-- Queue state of one `verify_item_rules` run. -/
structure RQState where
  mq : List String
  pq : List String
  detached : Option (List String)
  deriving DecidableEq, Repr

/-- The current value of the generic `source_artifacts_queue`. -/
def artifactsQueue (stype : SType) (st : RQState) : List String :=
  match st.detached with
  | some a => a
  | none =>
    match stype with
    | .materials => st.mq
    | .products => st.pq

/-- One iteration of the rule loop of `verify_item_rules`
(lines 841–892), dispatching on the rule type. -/
def applyRule (stype : SType) (links : List (String × Link))
    (source_materials source_products : Artifacts)
    (st : RQState) (rd : RuleData) : Except VError RQState :=
  let source_artifacts :=
    match stype with
    | .materials => source_materials
    | .products => source_products
  match rd.rtype with
  | .matchT => do
    let q' ← verify_match_rule rd (artifactsQueue stype st) source_artifacts links
    -- the queue object was mutated in place; if the alias still holds,
    -- the source-type queue is the same object
    .ok (match st.detached with
      | some _ => { st with detached := some q' }
      | none =>
        match stype with
        | .materials => { st with mq := q' }
        | .products => { st with pq := q' })
  | .allowT =>
    -- a fresh list is returned and bound to the generic queue only
    .ok { st with detached := some (verify_allow_rule rd (artifactsQueue stype st)) }
  | .disallowT => do
    let _ ← verify_disallow_rule rd (artifactsQueue stype st)
    .ok st
  | .createT => do
    let pq' ← verify_create_rule rd st.mq st.pq
    .ok (match stype with
      | .products => { st with pq := pq', detached := none }
      | .materials => { st with pq := pq' })
  | .deleteT => do
    let mq' ← verify_delete_rule rd st.mq st.pq
    .ok (match stype with
      | .materials => { st with mq := mq', detached := none }
      | .products => { st with mq := mq' })
  | .modifyT => do
    let mp ← verify_modify_rule rd st.mq st.pq source_materials source_products
    .ok { st with mq := mp.1, pq := mp.2, detached := none }

/-- Model of `verify_item_rules` (lines 771–892): look up the item's link
(`links[source_name]`, a missing name is a Python `KeyError`), build
the queues from the artifact dict keys, validate `source_type`, and
fold the rules over the queue state.  The function performs **no**
check after the loop: leftover queued artifacts do not fail it. -/
def verify_item_rules (source_name : String) (source_type : String)
    (rules : List RuleData) (links : List (String × Link)) :
    Except VError RQState := do
  let lnk ← match dlookup source_name links with
    | some l => Except.ok l
    | none => Except.error VError.keyError
  let source_materials := lnk.materials
  let source_products := lnk.products
  let stype ← if source_type = "materials" then Except.ok SType.materials
    else if source_type = "products" then Except.ok SType.products
    else Except.error VError.formatError
  rules.foldlM (applyRule stype links source_materials source_products)
    { mq := source_materials.map Prod.fst,
      pq := source_products.map Prod.fst,
      detached := none }

/-- Model of `verify_all_item_rules` (lines 895–925) for a list of inspections:
material rules first, then product rules, per item in order. -/
def verify_all_item_rules (items : List Inspection)
    (links : List (String × Link)) : Except VError Unit :=
  items.foldlM (fun _ item => do
    let _ ← verify_item_rules item.name ("materials") item.expected_materials links
    let _ ← verify_item_rules item.name ("products") item.expected_products links
    Except.ok ()) ()

/-! ### Inspections (`_raise_on_bad_retval`, `run_all_inspections`,
lines 50–142).  `in_toto.runlib.in_toto_run` is the external runner;
it is a function parameter of the model. -/

/-- Model of `_raise_on_bad_retval` (lines 50–86): raises `BadReturnValueError`
unless the value is the integer 0.  `none` models Python `None`, the
result of `byproducts.get("return-value")` when the key is absent;
`None` is not an `int`, so it fails the `isinstance` check. -/
def raise_on_bad_retval (return_value : Option PyVal) : Except VError Unit :=
  match return_value with
  | some (PyVal.int n) => if n ≠ 0 then .error .badReturn else .ok ()
  | _ => .error .badReturn

/-- The loop body of `run_all_inspections` (lines 115–140): run the
inspection command (external runner), check its return value, and
record the produced link under the inspection's name. -/
def runInspStep (runner : Inspection → Link) (acc : List (String × Link))
    (inspection : Inspection) : Except VError (List (String × Link)) := do
  let lnk := runner inspection
  let _ ← raise_on_bad_retval (dlookup ("return-value") lnk.byproducts)
  Except.ok (acc ++ [(inspection.name, lnk)])

/-- Model of `run_all_inspections` (lines 89–142): run each inspection in
declared order, abort on a bad return value, and accumulate the
produced links keyed by inspection name. -/
def run_all_inspections (runner : Inspection → Link) (layout : Layout) :
    Except VError (List (String × Link)) :=
  layout.inspect.foldlM (runInspStep runner) []

/-- The value `link.byproducts.get("return-value")` as read by
`run_all_inspections` at line 132. -/
def retVal (l : Link) : Option PyVal :=
  dlookup ("return-value") l.byproducts

/-- Steps 9–10 of `in_toto_verify` (lines 1222–1230): run all
inspections, then verify the inspection rules over the combined link
map (`combined_links = reduced ∪ inspections`, inspection links taking
precedence on equal names, hence listed first for lookup). -/
def inspectionPhase (runner : Inspection → Link) (layout : Layout)
    (reduced_links : List (String × Link)) : Except VError Unit := do
  let inspection_link_dict ← run_all_inspections runner layout
  verify_all_item_rules layout.inspect (inspection_link_dict ++ reduced_links)

/-! ### Threshold constraints and reduction (lines 928–1033) -/

/-- Model of `verify_threshold_constraints` (lines 928–992).  Steps with
`threshold <= 1` are skipped.  For the others, fewer than `threshold`
links fail with `ThresholdVerificationError`.  When enough links are
present, line 978 binds `reference_keyid`, but line 979 reads the
**unbound** variable `reference_key` (`reference_link =
key_link_dict[reference_key]`): Python raises `NameError` before any
link comparison can happen, so the documented artifact-agreement check
(lines 982–992) is unreachable. -/
def verify_threshold_constraints (layout : Layout)
    (chain_link_dict : List (String × List (String × Link))) :
    Except VError Unit :=
  layout.steps.foldlM (fun _ step =>
    if step.threshold ≤ 1 then Except.ok ()
    else
      match dlookup step.name chain_link_dict with
      | none => .error .keyError
      | some key_link_dict =>
        if key_link_dict.length < step.threshold then .error .threshold
        else .error .nameError) ()

/-- Model of `reduce_chain_links` (lines 995–1033): map every step name to
`key_link_dict.values()[0]`; indexing an empty dict's value list is a
Python `IndexError`. -/
def reduce_chain_links :
    List (String × List (String × Link)) → Except VError (List (String × Link))
  | [] => .ok []
  | ent :: rest =>
    match ent.2 with
    | [] => .error .indexError
    | (_, l) :: _ => do
      let tail ← reduce_chain_links rest
      .ok ((ent.1, l) :: tail)

/-- Step 7 of `in_toto_verify` (lines 1215–1217): threshold
verification followed by chain-link reduction. -/
def thresholdPhase (layout : Layout)
    (chain : List (String × List (String × Link))) :
    Except VError (List (String × Link)) := do
  let _ ← verify_threshold_constraints layout chain
  reduce_chain_links chain

/-! ### Link signature verification (lines 194–264).  The
cryptographic primitive `link.verify_signatures(keys_dict)` lives in
`in_toto.models.link` and is a function parameter of the model. -/

/-- Model of `verify_link_signatures` (lines 194–216): delegate to the
signature primitive; a failure is a signature error. -/
def verify_link_signatures (sigOk : Link → List (String × Key) → Bool)
    (lnk : Link) (keys_dict : List (String × Key)) : Except VError Unit :=
  if sigOk lnk keys_dict then .ok () else .error .signature

/-- Model of `verify_all_steps_signatures` (lines 219–264): for each step and
each `(keyid, link)` entry of its chain-link dict, an authorized keyid
is verified against the singleton dict `{keyid: layout.keys[keyid]}`
(a keyid missing from `layout.keys` is a Python `KeyError`).  For an
unauthorized keyid, line 257 raises `AuthorizationError` — a name that
is neither imported (lines 45–46) nor defined in the module, so Python
actually raises `NameError`. -/
def verify_all_steps_signatures (sigOk : Link → List (String × Key) → Bool)
    (layout : Layout)
    (chain_link_dict : List (String × List (String × Link))) :
    Except VError Unit :=
  layout.steps.foldlM (fun _ step =>
    match dlookup step.name chain_link_dict with
    | none => .error .keyError
    | some key_link_dict =>
      key_link_dict.foldlM (fun _ kv =>
        if kv.1 ∈ step.pubkeys then
          match dlookup kv.1 layout.keys with
          | none => .error .keyError
          | some key => verify_link_signatures sigOk kv.2 [(kv.1, key)]
        else .error .nameError) ()) ()

/-! ### Concrete example inputs -/

/-- A sha256 hash dict. -/
def dH1 : Digest := [("sha256", "aa11")]

/-- A different sha256 hash dict. -/
def dH2 : Digest := [("sha256", "bb22")]

/-- A link for step `sign` (used for the threshold examples). -/
def linkSign : Link :=
  { name := "sign", command := ["sign"], materials := [("m", dH1)],
    products := [("p", dH2)], byproducts := [], linkType := "link" }

/-- A second, artifact-disagreeing link for step `sign`. -/
def linkSignB : Link :=
  { name := "sign", command := ["sign"], materials := [("m", dH2)],
    products := [("p", dH2)], byproducts := [], linkType := "link" }

/-- Layout with a single step `sign` of threshold 2 signed by two
authorized functionaries. -/
def layoutThr2 : Layout :=
  { keys := [("k1", "K1"), ("k2", "K2")],
    steps := [{ name := "sign", pubkeys := ["k1", "k2"], threshold := 2,
                expected_command := ["sign"], expected_materials := [],
                expected_products := [] }],
    inspect := [], expires := "2030-01-01T00:00:00Z" }

/-- Chain-link dict for `sign` with two byte-identical links. -/
def chainThr2 : List (String × List (String × Link)) :=
  [("sign", [("k1", linkSign), ("k2", linkSign)])]

/-- Layout with a single step `sign` of threshold 1. -/
def layoutThr1 : Layout :=
  { keys := [("k1", "K1"), ("k2", "K2")],
    steps := [{ name := "sign", pubkeys := ["k1", "k2"], threshold := 1,
                expected_command := ["sign"], expected_materials := [],
                expected_products := [] }],
    inspect := [], expires := "2030-01-01T00:00:00Z" }

/-- Chain-link dict for `sign` with two links whose materials differ. -/
def chainThr1 : List (String × List (String × Link)) :=
  [("sign", [("k1", linkSign), ("k2", linkSignB)])]

/-- A link for step `build`. -/
def linkBuild : Link :=
  { name := "build", command := ["make"], materials := [],
    products := [("out.bin", dH1)], byproducts := [], linkType := "link" }

/-- Layout with a single step `build` authorizing only `k1`. -/
def layoutAuth : Layout :=
  { keys := [("k1", "K1"), ("k2", "K2")],
    steps := [{ name := "build", pubkeys := ["k1"], threshold := 1,
                expected_command := ["make"], expected_materials := [],
                expected_products := [] }],
    inspect := [], expires := "2030-01-01T00:00:00Z" }

/-- Chain-link dict whose `build` link is signed by the unauthorized
key `k2`. -/
def chainAuth : List (String × List (String × Link)) :=
  [("build", [("k2", linkBuild)])]

/-- The MATCH rule of spec scenario 3:
`["MATCH","lib*.a","IN","build/out","WITH","PRODUCTS","IN","dist","FROM","compile"]`. -/
def rdMatchLib : RuleData :=
  { rtype := .matchT, pattern := "lib*.a", src_pfx := "build/out",
    dst_pfx := "dist", dest_type := .products, dest_name := "compile" }

/-- Destination link for scenario 3: `compile` produced
`dist/libz.a`. -/
def linkCompile : Link :=
  { name := "compile", command := ["cc"], materials := [],
    products := [("dist/libz.a", dH1)], byproducts := [], linkType := "link" }

/-- Link dict containing the `compile` destination link. -/
def linksMatch : List (String × Link) := [("compile", linkCompile)]

/-- Source artifacts of the item under scenario 3. -/
def srcMatch : Artifacts := [("build/out/libz.a", dH1), ("other", dH2)]

/-- An `["ALLOW","b"]` rule (matches nothing in the examples). -/
def rdAllowB : RuleData :=
  { rtype := .allowT, pattern := "b", src_pfx := "", dst_pfx := "",
    dest_type := .materials, dest_name := "" }

/-- An `["ALLOW","a"]` rule. -/
def rdAllowA : RuleData :=
  { rtype := .allowT, pattern := "a", src_pfx := "", dst_pfx := "",
    dest_type := .materials, dest_name := "" }

/-- A `["DELETE","zzz"]` rule (matches nothing in the examples). -/
def rdDeleteZ : RuleData :=
  { rtype := .deleteT, pattern := "zzz", src_pfx := "", dst_pfx := "",
    dest_type := .materials, dest_name := "" }

/-- A `["CREATE","a"]` rule. -/
def rdCreateA : RuleData :=
  { rtype := .createT, pattern := "a", src_pfx := "", dst_pfx := "",
    dest_type := .materials, dest_name := "" }

/-- A link for the item `it` with materials `a` and `b` and no
products. -/
def linkItem : Link :=
  { name := "it", command := [], materials := [("a", dH1), ("b", dH2)],
    products := [], byproducts := [], linkType := "link" }

/-- Link dict containing only the item's own link. -/
def linksItem : List (String × Link) := [("it", linkItem)]

/-- An inspection returning 0. -/
def inspGood : Inspection :=
  { name := "good", run := ["true"], expected_materials := [],
    expected_products := [] }

/-- An inspection whose command returns 2. -/
def inspBad : Inspection :=
  { name := "bad", run := ["false"], expected_materials := [],
    expected_products := [] }

/-- An inspection declared after the failing one. -/
def inspAfter : Inspection :=
  { name := "after", run := ["true"], expected_materials := [],
    expected_products := [] }

/-- An inspection whose link reports no `return-value` byproduct. -/
def inspNoRet : Inspection :=
  { name := "noret", run := ["true"], expected_materials := [],
    expected_products := [] }

/-- A link whose byproducts report return value 0. -/
def linkRet0 : Link :=
  { name := "good", command := ["true"], materials := [],
    products := [], byproducts := [("return-value", PyVal.int 0)],
    linkType := "link" }

/-- A link whose byproducts report return value 2. -/
def linkRet2 : Link :=
  { name := "bad", command := ["false"], materials := [],
    products := [], byproducts := [("return-value", PyVal.int 2)],
    linkType := "link" }

/-- A link whose byproducts lack the `return-value` key. -/
def linkNoRet : Link :=
  { name := "noret", command := ["true"], materials := [],
    products := [], byproducts := [("stdout", PyVal.str ("x"))],
    linkType := "link" }

/-- A runner mapping each example inspection to its example link. -/
def runnerEx : Inspection → Link := fun i =>
  if i.name = "good" then linkRet0
  else if i.name = "bad" then linkRet2
  else if i.name = "noret" then linkNoRet
  else linkRet0

/-- Layout declaring the failing inspection between two good ones. -/
def layoutInsp : Layout :=
  { keys := [], steps := [], inspect := [inspGood, inspBad, inspAfter],
    expires := "2030-01-01T00:00:00Z" }

/-- Layout whose second inspection's link lacks `return-value`. -/
def layoutInspNoRet : Layout :=
  { keys := [], steps := [], inspect := [inspGood, inspNoRet],
    expires := "2030-01-01T00:00:00Z" }

/-- Layout with a single all-good inspection. -/
def layoutInspOk : Layout :=
  { keys := [], steps := [], inspect := [inspGood],
    expires := "2030-01-01T00:00:00Z" }

/-! ## Theorems -/

/-! ### Helper lemmas -/

theorem string_data_inj {a b : String} (h : a.data = b.data) : a = b := by
  cases a
  cases b
  exact congrArg String.mk h

theorem mem_pySetDiff {a b : List String} {x : String} :
    x ∈ pySetDiff a b ↔ x ∈ a ∧ x ∉ b := by
  simp [pySetDiff, List.mem_dedup, List.mem_filter]

theorem pySetDiff_length_le (a b : List String) :
    (pySetDiff a b).length ≤ a.length :=
  le_trans (List.dedup_sublist _).length_le (List.filter_sublist _).length_le

theorem strStarts_append_drop (pre x : String) (h : strStarts pre x = true) :
    pre ++ strDrop pre.length x = x := by
  unfold strStarts at h
  rw [List.isPrefixOf_iff_prefix] at h
  obtain ⟨t, ht⟩ := h
  apply string_data_inj
  rw [String.data_append]
  show pre.data ++ x.data.drop pre.length = x.data
  rw [← ht]
  show pre.data ++ (pre.data ++ t).drop pre.data.length = pre.data ++ t
  rw [List.drop_left]

theorem fullSrc_strip (rd : RuleData) (x : String) (hp : rd.src_pfx ≠ "")
    (h : strStarts (rd.src_pfx ++ "/") x = true) :
    fullSrc rd (strDrop (rd.src_pfx.length + 1) x) = x := by
  have h1 : (rd.src_pfx ++ "/").length = rd.src_pfx.length + 1 := by
    rw [String.length_append]
    rfl
  have h2 := strStarts_append_drop (rd.src_pfx ++ "/") x h
  rw [h1] at h2
  unfold fullSrc
  rw [if_pos hp]
  calc rd.src_pfx ++ "/" ++ strDrop (rd.src_pfx.length + 1) x
      = (rd.src_pfx ++ "/") ++ strDrop (rd.src_pfx.length + 1) x := by
        rw [String.append_assoc]
    _ = x := h2

theorem destCheckB_true (rd : RuleData) (src dst : Artifacts) (p : String) :
    destCheckB rd src dst p = true ↔
      ∃ sa da, dlookup (fullSrc rd p) src = some sa ∧
        dlookup (fullDst rd p) dst = some da ∧ digestEq sa da = true := by
  cases hsa : dlookup (fullSrc rd p) src <;>
    cases hda : dlookup (fullDst rd p) dst <;>
      simp [destCheckB, hsa, hda]

theorem matchLoop_ok_length (rd : RuleData) (src dst : Artifacts) :
    ∀ (ps q q' : List String), matchLoop rd src dst ps q = Except.ok q' →
      q'.length ≤ q.length := by
  intro ps
  induction ps with
  | nil =>
    intro q q' h
    simp only [matchLoop] at h
    cases h
    exact le_refl _
  | cons a t ih =>
    intro q q' h
    cases hsa : dlookup (fullSrc rd a) src with
    | none => simp [matchLoop, hsa] at h
    | some sa =>
      cases hda : dlookup (fullDst rd a) dst with
      | none => simp [matchLoop, hsa, hda] at h
      | some da =>
        by_cases hdig : digestEq sa da = true
        · by_cases hmem : fullSrc rd a ∈ q
          · simp only [matchLoop, hsa, hda, hdig, if_true, hmem, if_pos] at h
            exact le_trans (ih _ _ h) (List.erase_sublist _ _).length_le
          · simp [matchLoop, hsa, hda, hdig, hmem] at h
        · simp [matchLoop, hsa, hda, hdig] at h

theorem matchLoop_ok_sublist (rd : RuleData) (src dst : Artifacts) :
    ∀ (ps q q' : List String), matchLoop rd src dst ps q = Except.ok q' →
      q'.Sublist q := by
  intro ps
  induction ps with
  | nil =>
    intro q q' h
    simp only [matchLoop] at h
    cases h
    exact List.Sublist.refl _
  | cons a t ih =>
    intro q q' h
    cases hsa : dlookup (fullSrc rd a) src with
    | none => simp [matchLoop, hsa] at h
    | some sa =>
      cases hda : dlookup (fullDst rd a) dst with
      | none => simp [matchLoop, hsa, hda] at h
      | some da =>
        by_cases hdig : digestEq sa da = true
        · by_cases hmem : fullSrc rd a ∈ q
          · simp only [matchLoop, hsa, hda, hdig, if_true, hmem, if_pos] at h
            exact (ih _ _ h).trans (List.erase_sublist _ _)
          · simp [matchLoop, hsa, hda, hdig, hmem] at h
        · simp [matchLoop, hsa, hda, hdig] at h

theorem matchLoop_ok_all (rd : RuleData) (src dst : Artifacts) :
    ∀ (ps q q' : List String), matchLoop rd src dst ps q = Except.ok q' →
      ∀ p ∈ ps, destCheckB rd src dst p = true := by
  intro ps
  induction ps with
  | nil =>
    intro q q' _ p hp
    cases hp
  | cons a t ih =>
    intro q q' h p hp
    cases hsa : dlookup (fullSrc rd a) src with
    | none => simp [matchLoop, hsa] at h
    | some sa =>
      cases hda : dlookup (fullDst rd a) dst with
      | none => simp [matchLoop, hsa, hda] at h
      | some da =>
        by_cases hdig : digestEq sa da = true
        · by_cases hmem : fullSrc rd a ∈ q
          · simp only [matchLoop, hsa, hda, hdig, if_true, hmem, if_pos] at h
            rcases List.mem_cons.mp hp with rfl | hpt
            · exact (destCheckB_true rd src dst p).mpr ⟨sa, da, hsa, hda, hdig⟩
            · exact ih _ _ h p hpt
          · simp [matchLoop, hsa, hda, hdig, hmem] at h
        · simp [matchLoop, hsa, hda, hdig] at h

theorem matchLoop_all_ok (rd : RuleData) (src dst : Artifacts) :
    ∀ (ps q : List String), (ps.map (fullSrc rd)).Nodup →
      (∀ p ∈ ps, fullSrc rd p ∈ q) → q.Nodup →
      (∀ p ∈ ps, destCheckB rd src dst p = true) →
      matchLoop rd src dst ps q =
        Except.ok (q.filter (fun x => !((ps.map (fullSrc rd)).contains x))) := by
  intro ps
  induction ps with
  | nil =>
    intro q _ _ _ _
    simp [matchLoop]
  | cons a t ih =>
    intro q hnd hmem hq hall
    obtain ⟨sa, da, hsa, hda, hdig⟩ :=
      (destCheckB_true rd src dst a).mp (hall a (List.mem_cons_self a t))
    have hnd2 : (fullSrc rd a :: t.map (fullSrc rd)).Nodup := by
      simpa using hnd
    have hnotin : fullSrc rd a ∉ t.map (fullSrc rd) := (List.nodup_cons.mp hnd2).1
    have hmem' : ∀ p ∈ t, fullSrc rd p ∈ q.erase (fullSrc rd a) := by
      intro p hp
      have hne : fullSrc rd p ≠ fullSrc rd a := by
        intro he
        exact hnotin (he ▸ List.mem_map_of_mem _ hp)
      exact (List.mem_erase_of_ne hne).mpr (hmem p (List.mem_cons_of_mem a hp))
    have hmq : fullSrc rd a ∈ q := hmem a (List.mem_cons_self a t)
    simp only [matchLoop, hsa, hda, hdig, if_true, hmq, if_pos]
    rw [ih (q.erase (fullSrc rd a)) (List.nodup_cons.mp hnd2).2 hmem'
      (hq.erase _) (fun p hp => hall p (List.mem_cons_of_mem a hp))]
    congr 1
    rw [hq.erase_eq_filter, List.filter_filter]
    apply List.filter_congr
    intro x _
    by_cases hx : x = fullSrc rd a
    · simp [hx]
    · simp [hx, bne_iff_ne, Bool.and_comm]

theorem matchLoop_ok_or (rd : RuleData) (src dst : Artifacts) :
    ∀ (ps q : List String), (∀ p ∈ ps, (dlookup (fullSrc rd p) src).isSome) →
      (ps.map (fullSrc rd)).Nodup → (∀ p ∈ ps, fullSrc rd p ∈ q) → q.Nodup →
      (∃ q', matchLoop rd src dst ps q = Except.ok q') ∨
        matchLoop rd src dst ps q = Except.error VError.ruleVerification := by
  intro ps
  induction ps with
  | nil =>
    intro q _ _ _ _
    exact Or.inl ⟨q, rfl⟩
  | cons a t ih =>
    intro q hsrc hnd hmem hq
    have hsa' := hsrc a (List.mem_cons_self a t)
    cases hsa : dlookup (fullSrc rd a) src with
    | none => rw [hsa] at hsa'; cases hsa'
    | some sa =>
      have hnd2 : (fullSrc rd a :: t.map (fullSrc rd)).Nodup := by
        simpa using hnd
      have hnotin : fullSrc rd a ∉ t.map (fullSrc rd) := (List.nodup_cons.mp hnd2).1
      have hmem' : ∀ p ∈ t, fullSrc rd p ∈ q.erase (fullSrc rd a) := by
        intro p hp
        have hne : fullSrc rd p ≠ fullSrc rd a := by
          intro he
          exact hnotin (he ▸ List.mem_map_of_mem _ hp)
        exact (List.mem_erase_of_ne hne).mpr (hmem p (List.mem_cons_of_mem a hp))
      cases hda : dlookup (fullDst rd a) dst with
      | none =>
        refine Or.inr ?_
        simp [matchLoop, hsa, hda]
      | some da =>
        by_cases hdig : digestEq sa da = true
        · have hmq : fullSrc rd a ∈ q := hmem a (List.mem_cons_self a t)
          simp only [matchLoop, hsa, hda, hdig, if_true, hmq, if_pos]
          exact ih (q.erase (fullSrc rd a))
            (fun p hp => hsrc p (List.mem_cons_of_mem a hp))
            (List.nodup_cons.mp hnd2).2 hmem' (hq.erase _)
        · refine Or.inr ?_
          simp [matchLoop, hsa, hda, hdig]

/-- Filters I–II composed with the prefix re-concatenation: the full
source paths of the surviving relative paths are exactly the queued
paths selected by prefix and (stripped) glob. -/
theorem map_fullSrc_relPaths (rd : RuleData) (q : List String) :
    (relPaths rd q).map (fullSrc rd) =
      if rd.src_pfx ≠ "" then
        (q.filter (fun x => strStarts (rd.src_pfx ++ "/") x)).filter
          (fun x => fnmatchB rd.pattern (strDrop (rd.src_pfx.length + 1) x))
      else q.filter (fun x => fnmatchB rd.pattern x) := by
  unfold relPaths fnfilter
  by_cases hp : rd.src_pfx = ""
  · rw [if_neg (by simp [hp]), if_neg (by simp [hp])]
    show List.map (fullSrc rd) (List.filter (fun n => fnmatchB rd.pattern n) q) =
      List.filter (fun x => fnmatchB rd.pattern x) q
    have hid : ∀ x ∈ List.filter (fun n => fnmatchB rd.pattern n) q,
        fullSrc rd x = id x := by
      intro x _
      simp [fullSrc, hp]
    rw [List.map_congr_left hid, List.map_id]
  · rw [if_pos hp, if_pos hp]
    show List.map (fullSrc rd) (List.filter (fun n => fnmatchB rd.pattern n)
        ((List.filter (fun x => strStarts (rd.src_pfx ++ "/") x) q).map
          (fun x => strDrop (rd.src_pfx.length + 1) x))) =
      List.filter (fun x => fnmatchB rd.pattern (strDrop (rd.src_pfx.length + 1) x))
        (List.filter (fun x => strStarts (rd.src_pfx ++ "/") x) q)
    rw [List.filter_map, List.map_map]
    have hid : ∀ x ∈ List.filter
        ((fun n => fnmatchB rd.pattern n) ∘ fun x => strDrop (rd.src_pfx.length + 1) x)
        (List.filter (fun x => strStarts (rd.src_pfx ++ "/") x) q),
        (fullSrc rd ∘ fun x => strDrop (rd.src_pfx.length + 1) x) x = id x := by
      intro x hx
      have hsw := (List.mem_filter.mp (List.mem_filter.mp hx).1).2
      exact fullSrc_strip rd x hp hsw
    rw [List.map_congr_left hid, List.map_id]
    rfl

theorem except_bind_error {α β : Type} (e : VError) (f : α → Except VError β) :
    (Except.error e >>= f) = Except.error e := rfl

theorem except_bind_ok {α β : Type} (a : α) (f : α → Except VError β) :
    (Except.ok a >>= f) = f a := rfl

theorem verify_match_rule_ok_length (rd : RuleData) (q : List String)
    (src : Artifacts) (links : List (String × Link)) (q' : List String)
    (h : verify_match_rule rd q src links = Except.ok q') :
    q'.length ≤ q.length := by
  cases hdl : dlookup rd.dest_name links with
  | none => simp [verify_match_rule, hdl] at h
  | some dl =>
    simp only [verify_match_rule, hdl] at h
    exact matchLoop_ok_length rd src _ _ _ _ h

theorem verify_match_rule_ok_sublist (rd : RuleData) (q : List String)
    (src : Artifacts) (links : List (String × Link)) (q' : List String)
    (h : verify_match_rule rd q src links = Except.ok q') :
    q'.Sublist q := by
  cases hdl : dlookup rd.dest_name links with
  | none => simp [verify_match_rule, hdl] at h
  | some dl =>
    simp only [verify_match_rule, hdl] at h
    exact matchLoop_ok_sublist rd src _ _ _ _ h

theorem verify_create_rule_ok (rd : RuleData) {mq pq pq' : List String}
    (h : verify_create_rule rd mq pq = Except.ok pq') :
    pq' = pySetDiff pq (fnfilter pq rd.pattern) := by
  simp only [verify_create_rule] at h
  by_cases hc : (fnfilter pq rd.pattern).any (fun m => mq.contains m) = true
  · rw [if_pos hc] at h
    cases h
  · rw [if_neg hc] at h
    cases h
    rfl

theorem verify_delete_rule_ok (rd : RuleData) {mq pq mq' : List String}
    (h : verify_delete_rule rd mq pq = Except.ok mq') :
    mq' = pySetDiff mq (fnfilter mq rd.pattern) := by
  simp only [verify_delete_rule] at h
  by_cases hc : (fnfilter mq rd.pattern).any (fun m => pq.contains m) = true
  · rw [if_pos hc] at h
    cases h
  · rw [if_neg hc] at h
    cases h
    rfl

theorem verify_modify_rule_ok (rd : RuleData) {mq pq : List String}
    {sm sp : Artifacts} {mq' pq' : List String}
    (h : verify_modify_rule rd mq pq sm sp = Except.ok (mq', pq')) :
    mq' = pySetDiff mq (fnfilter mq rd.pattern) ∧
      pq' = pySetDiff pq (fnfilter pq rd.pattern) := by
  simp only [verify_modify_rule] at h
  by_cases h1 : (fnfilter mq rd.pattern).any
      (fun x => !(fnfilter pq rd.pattern).contains x) = true
  · rw [if_pos h1] at h
    cases h
  · rw [if_neg h1] at h
    by_cases h2 : (fnfilter pq rd.pattern).any
        (fun x => !(fnfilter mq rd.pattern).contains x) = true
    · rw [if_pos h2] at h
      cases h
    · rw [if_neg h2] at h
      cases hl : modifyHashLoop sm sp (fnfilter mq rd.pattern) with
      | error e => rw [hl, except_bind_error] at h; cases h
      | ok u =>
        rw [hl, except_bind_ok] at h
        cases h
        exact ⟨rfl, rfl⟩

/-- C2: `verify_match_rule` filters the queue by source prefix, strips
it, applies the glob to the relative paths, and — when the destination
link exists — succeeds exactly when every surviving relative path has
a destination artifact (at the destination prefix) with the source
artifact's digest, returning the queue minus precisely the matched
full (prefix-included) source paths; a missing destination link, a
missing destination artifact, or a digest mismatch raise the rule
verification error. -/
theorem c2_verify_match_rule_correct (rd : RuleData) (q : List String)
    (src : Artifacts) (links : List (String × Link))
    (hq : q.Nodup)
    (hsrc : ∀ p ∈ relPaths rd q, (dlookup (fullSrc rd p) src).isSome) :
    (dlookup rd.dest_name links = none →
      verify_match_rule rd q src links = Except.error VError.ruleVerification) ∧
    (∀ dl, dlookup rd.dest_name links = some dl →
      ((∀ p ∈ relPaths rd q,
          destCheckB rd src (destArtifacts rd.dest_type dl) p = true) →
        verify_match_rule rd q src links =
          Except.ok (q.filter
            (fun x => !(((relPaths rd q).map (fullSrc rd)).contains x)))) ∧
      ((∃ p ∈ relPaths rd q,
          destCheckB rd src (destArtifacts rd.dest_type dl) p = false) →
        verify_match_rule rd q src links =
          Except.error VError.ruleVerification)) := by
  have hSsub : ((relPaths rd q).map (fullSrc rd)).Sublist q := by
    rw [map_fullSrc_relPaths]
    by_cases hp : rd.src_pfx = ""
    · rw [if_neg (by simp [hp])]
      exact List.filter_sublist q
    · rw [if_pos hp]
      exact (List.filter_sublist _).trans (List.filter_sublist q)
  have hSnd : ((relPaths rd q).map (fullSrc rd)).Nodup := hSsub.nodup hq
  have hmem : ∀ p ∈ relPaths rd q, fullSrc rd p ∈ q := fun p hp =>
    hSsub.subset (List.mem_map_of_mem _ hp)
  refine ⟨?_, ?_⟩
  · intro hnone
    simp [verify_match_rule, hnone]
  · intro dl hdl
    refine ⟨?_, ?_⟩
    · intro hall
      simp only [verify_match_rule, hdl]
      exact matchLoop_all_ok rd src _ _ _ hSnd hmem hq hall
    · rintro ⟨p, hp, hpf⟩
      simp only [verify_match_rule, hdl]
      rcases matchLoop_ok_or rd src (destArtifacts rd.dest_type dl)
          (relPaths rd q) q hsrc hSnd hmem hq with ⟨q', hok⟩ | herr
      · have hall := matchLoop_ok_all rd src _ _ _ _ hok p hp
        rw [hpf] at hall
        cases hall
      · exact herr

/-- Witness for C2 at spec scenario 3: the queued path
`build/out/libz.a` is matched against `dist/libz.a` of step `compile`
and removed from the queue. -/
theorem c2_witness :
    verify_match_rule rdMatchLib ["build/out/libz.a"] srcMatch linksMatch =
      Except.ok [] := by
  have h := ((c2_verify_match_rule_correct rdMatchLib ["build/out/libz.a"]
    srcMatch linksMatch (by decide) (by decide)).2 linkCompile rfl).1 (by decide)
  rw [h]
  rfl

/-- C1 (code bug evaluated at the failing input): for step `sign` with
threshold 2 whose chain-link entry holds two byte-identical links, the
claim says `verify_threshold_constraints` returns normally; the code
instead raises `NameError`, because line 979 reads the unbound
variable `reference_key` (line 978 bound `reference_keyid`), so the
reference-link comparison of lines 982–992 is unreachable. -/
theorem c1_threshold_agreeing_links_name_error :
    verify_threshold_constraints layoutThr2 chainThr2 =
      Except.error VError.nameError := by
  rfl

/-- C4 (code bug evaluated at the failing input): a `build` link
signed by keyid `k2`, which is not in the step's pubkeys, makes
`verify_all_steps_signatures` raise `NameError` — line 257 raises
`AuthorizationError`, a name the module never imports or defines —
rather than an Authorization error naming the key. -/
theorem c4_unauthorized_keyid_name_error :
    verify_all_steps_signatures (fun _ _ => true) layoutAuth chainAuth =
      Except.error VError.nameError := by
  rfl

/-- C5 counterexample: for step `sign` with threshold 1 and two loaded
functionary links whose materials differ, threshold verification plus
reduction succeeds (steps with threshold ≤ 1 are skipped by
`verify_threshold_constraints`), refuting the claim that success
implies agreement of all loaded links including threshold-1 steps. -/
theorem c5_counterexample_threshold_one_disagreement :
    thresholdPhase layoutThr1 chainThr1 = Except.ok [("sign", linkSign)] ∧
      artifactsEq linkSign.materials linkSignB.materials = false := by
  exact ⟨rfl, rfl⟩

/-- C3 counterexample: `["ALLOW","b"]` matches nothing in the queue
`["a","a"]`, yet `verify_allow_rule` does not return the input queue:
`list(set(queue) - set(matched))` deduplicates, so the result has one
element, not two. -/
theorem c3_counterexample_allow_deduplicates :
    fnfilter ["a", "a"] rdAllowB.pattern = [] ∧
      verify_allow_rule rdAllowB ["a", "a"] ≠ ["a", "a"] := by
  exact ⟨rfl, by decide⟩

/-- C6 counterexample: in the materials-rule run of item `it` with
the rule list `[ALLOW a, DELETE zzz]`, the ALLOW
rule rebinds the generic artifacts queue to a fresh one-element list,
but the stale materials queue keeps both paths; the DELETE rule (which
matches nothing) then rebinds the generic queue back to the materials
queue, growing it from 1 element to 2 — refuting the claim that every
queue is non-increasing across each rule. -/
theorem c6_counterexample_artifacts_queue_grows :
    verify_item_rules ("it") ("materials") [rdAllowA, rdDeleteZ] linksItem =
        Except.ok { mq := ["a", "b"], pq := [], detached := none } ∧
      applyRule SType.materials linksItem linkItem.materials linkItem.products
          { mq := ["a", "b"], pq := [], detached := none } rdAllowA =
        Except.ok { mq := ["a", "b"], pq := [], detached := some ["b"] } ∧
      applyRule SType.materials linksItem linkItem.materials linkItem.products
          { mq := ["a", "b"], pq := [], detached := some ["b"] } rdDeleteZ =
        Except.ok { mq := ["a", "b"], pq := [], detached := none } ∧
      (artifactsQueue SType.materials
          { mq := ["a", "b"], pq := [], detached := some ["b"] }).length <
        (artifactsQueue SType.materials
          { mq := ["a", "b"], pq := [], detached := none }).length := by
  exact ⟨rfl, rfl, rfl, by decide⟩

theorem mem_pySetDiff_fnfilter {q : List String} {pat x : String} :
    x ∈ pySetDiff q (fnfilter q pat) ↔ x ∈ q ∧ fnmatchB pat x = false := by
  rw [mem_pySetDiff]
  constructor
  · rintro ⟨hq, hn⟩
    refine ⟨hq, ?_⟩
    cases hfn : fnmatchB pat x with
    | false => rfl
    | true => exact absurd (List.mem_filter.mpr ⟨hq, hfn⟩) hn
  · rintro ⟨hq, hfn⟩
    refine ⟨hq, fun hc => ?_⟩
    have hm := (List.mem_filter.mp hc).2
    rw [hfn] at hm
    cases hm

/-- C3 (amended): every evaluator only removes paths matched by the
rule's pattern: ALLOW, CREATE, DELETE and MODIFY return queues whose
elements are exactly the (distinct) input paths the glob does not
match — deduplicated, in CPython's unspecified set order, because they
go through `list(set(...) - set(...))` — and MATCH returns a
subsequence of its input queue, so its surviving paths keep their
relative order. -/
theorem c3_evaluators_remove_matched (rd : RuleData) :
    (∀ q x, x ∈ verify_allow_rule rd q ↔
      x ∈ q ∧ fnmatchB rd.pattern x = false) ∧
    (∀ mq pq pq' x, verify_create_rule rd mq pq = Except.ok pq' →
      (x ∈ pq' ↔ x ∈ pq ∧ fnmatchB rd.pattern x = false)) ∧
    (∀ mq pq mq' x, verify_delete_rule rd mq pq = Except.ok mq' →
      (x ∈ mq' ↔ x ∈ mq ∧ fnmatchB rd.pattern x = false)) ∧
    (∀ mq pq sm sp mq' pq' x,
      verify_modify_rule rd mq pq sm sp = Except.ok (mq', pq') →
      ((x ∈ mq' ↔ x ∈ mq ∧ fnmatchB rd.pattern x = false) ∧
        (x ∈ pq' ↔ x ∈ pq ∧ fnmatchB rd.pattern x = false))) ∧
    (∀ q src links q', verify_match_rule rd q src links = Except.ok q' →
      q'.Sublist q) := by
  refine ⟨?_, ?_, ?_, ?_, ?_⟩
  · intro q x
    exact mem_pySetDiff_fnfilter
  · intro mq pq pq' x h
    rw [verify_create_rule_ok rd h]
    exact mem_pySetDiff_fnfilter
  · intro mq pq mq' x h
    rw [verify_delete_rule_ok rd h]
    exact mem_pySetDiff_fnfilter
  · intro mq pq sm sp mq' pq' x h
    obtain ⟨h1, h2⟩ := verify_modify_rule_ok rd h
    rw [h1, h2]
    exact ⟨mem_pySetDiff_fnfilter, mem_pySetDiff_fnfilter⟩
  · intro q src links q' h
    exact verify_match_rule_ok_sublist rd q src links q' h

/-- Witness for the amended C3: `["CREATE","a"]` on products
`["a","b"]` leaves exactly the unmatched path `b`. -/
theorem c3_amended_witness :
    "b" ∈ (["b"] : List String) ↔
      "b" ∈ (["a", "b"] : List String) ∧
        fnmatchB rdCreateA.pattern ("b") = false :=
  (c3_evaluators_remove_matched rdCreateA).2.1 [] ["a", "b"] ["b"] "b" rfl

theorem reduce_chain_links_ok (chain : List (String × List (String × Link))) :
    ∀ red, reduce_chain_links chain = Except.ok red →
      red.length = chain.length ∧
        ∀ n kld, (n, kld) ∈ chain →
          ∃ k l rest, kld = (k, l) :: rest ∧ (n, l) ∈ red := by
  induction chain with
  | nil =>
    intro red h
    simp only [reduce_chain_links] at h
    cases h
    exact ⟨rfl, by intro n kld hk; cases hk⟩
  | cons ent rest ih =>
    intro red h
    obtain ⟨n0, kld0⟩ := ent
    cases kld0 with
    | nil => simp [reduce_chain_links] at h
    | cons kl r =>
      obtain ⟨k0, l0⟩ := kl
      simp only [reduce_chain_links] at h
      cases hr : reduce_chain_links rest with
      | error e => rw [hr, except_bind_error] at h; cases h
      | ok tail =>
        rw [hr, except_bind_ok] at h
        cases h
        obtain ⟨hlen, hmem⟩ := ih tail hr
        refine ⟨by simp [hlen], ?_⟩
        intro n kld hk
        rcases List.mem_cons.mp hk with heq | hk2
        · injection heq with h1 h2
          exact ⟨k0, l0, r, h2, by rw [h1]; exact List.mem_cons_self _ _⟩
        · obtain ⟨k, l, rest2, hkld, hin⟩ := hmem n kld hk2
          exact ⟨k, l, rest2, hkld, List.mem_cons_of_mem _ hin⟩

/-- C5 (amended): whenever the threshold phase (threshold verification
followed by reduction) succeeds, the reduced link map has exactly one
representative link per chain entry — the first link of that step's
key-link dict.  Agreement of materials and products is only checked
for steps with threshold greater than 1 (and, with the unbound
`reference_key` defect, such steps can never pass), so functionary
links of steps with threshold ≤ 1 may disagree. -/
theorem c5_success_one_representative (layout : Layout)
    (chain : List (String × List (String × Link)))
    (red : List (String × Link))
    (h : thresholdPhase layout chain = Except.ok red) :
    red.length = chain.length ∧
      ∀ n kld, (n, kld) ∈ chain →
        ∃ k l rest, kld = (k, l) :: rest ∧ (n, l) ∈ red := by
  have hred : reduce_chain_links chain = Except.ok red := by
    unfold thresholdPhase at h
    cases hv : verify_threshold_constraints layout chain with
    | error e => rw [hv, except_bind_error] at h; cases h
    | ok u =>
      cases u
      rw [hv, except_bind_ok] at h
      exact h
  exact reduce_chain_links_ok chain red hred

/-- Witness for the amended C5 at the threshold-1 chain with
disagreeing links: the phase succeeds and reduces to exactly one
representative per step. -/
theorem c5_amended_witness :
    ([("sign", linkSign)] : List (String × Link)).length = chainThr1.length ∧
      ∀ n kld, (n, kld) ∈ chainThr1 →
        ∃ k l rest, kld = (k, l) :: rest ∧
          (n, l) ∈ ([("sign", linkSign)] : List (String × Link)) :=
  c5_success_one_representative layoutThr1 chainThr1 [("sign", linkSign)] rfl

/-- C6 (amended): across every rule application the materials queue
and the products queue never grow — every update replaces a queue by a
sub-collection of itself.  (The *generic* artifacts queue, by
contrast, can grow when a CREATE/DELETE/MODIFY rule rebinds it to its
specific queue after an ALLOW rule had detached it; see the
counterexample.) -/
theorem c6_specific_queues_non_increasing (stype : SType)
    (links : List (String × Link)) (sm sp : Artifacts)
    (st st' : RQState) (rd : RuleData)
    (h : applyRule stype links sm sp st rd = Except.ok st') :
    st'.mq.length ≤ st.mq.length ∧ st'.pq.length ≤ st.pq.length := by
  obtain ⟨rt, pat, spfx, dpfx, dty, dn⟩ := rd
  cases stype <;> cases rt <;> simp only [applyRule] at h
  case materials.matchT =>
    cases hv : verify_match_rule ⟨RuleType.matchT, pat, spfx, dpfx, dty, dn⟩
        (artifactsQueue SType.materials st) sm links with
    | error e => rw [hv, except_bind_error] at h; cases h
    | ok q' =>
      rw [hv, except_bind_ok] at h
      have hlen := verify_match_rule_ok_length _ _ _ _ _ hv
      cases hd : st.detached with
      | some a =>
        simp only [hd] at h
        cases h
        exact ⟨le_refl _, le_refl _⟩
      | none =>
        simp only [hd] at h
        cases h
        simp only [artifactsQueue, hd] at hlen
        exact ⟨hlen, le_refl _⟩
  case products.matchT =>
    cases hv : verify_match_rule ⟨RuleType.matchT, pat, spfx, dpfx, dty, dn⟩
        (artifactsQueue SType.products st) sp links with
    | error e => rw [hv, except_bind_error] at h; cases h
    | ok q' =>
      rw [hv, except_bind_ok] at h
      have hlen := verify_match_rule_ok_length _ _ _ _ _ hv
      cases hd : st.detached with
      | some a =>
        simp only [hd] at h
        cases h
        exact ⟨le_refl _, le_refl _⟩
      | none =>
        simp only [hd] at h
        cases h
        simp only [artifactsQueue, hd] at hlen
        exact ⟨le_refl _, hlen⟩
  case materials.allowT =>
    cases h
    exact ⟨le_refl _, le_refl _⟩
  case products.allowT =>
    cases h
    exact ⟨le_refl _, le_refl _⟩
  case materials.disallowT =>
    cases hv : verify_disallow_rule ⟨RuleType.disallowT, pat, spfx, dpfx, dty, dn⟩
        (artifactsQueue SType.materials st) with
    | error e => rw [hv, except_bind_error] at h; cases h
    | ok u =>
      cases u
      rw [hv, except_bind_ok] at h
      cases h
      exact ⟨le_refl _, le_refl _⟩
  case products.disallowT =>
    cases hv : verify_disallow_rule ⟨RuleType.disallowT, pat, spfx, dpfx, dty, dn⟩
        (artifactsQueue SType.products st) with
    | error e => rw [hv, except_bind_error] at h; cases h
    | ok u =>
      cases u
      rw [hv, except_bind_ok] at h
      cases h
      exact ⟨le_refl _, le_refl _⟩
  case materials.createT =>
    cases hv : verify_create_rule ⟨RuleType.createT, pat, spfx, dpfx, dty, dn⟩
        st.mq st.pq with
    | error e => rw [hv, except_bind_error] at h; cases h
    | ok pq' =>
      rw [hv, except_bind_ok] at h
      cases h
      rw [verify_create_rule_ok _ hv]
      exact ⟨le_refl _, pySetDiff_length_le _ _⟩
  case products.createT =>
    cases hv : verify_create_rule ⟨RuleType.createT, pat, spfx, dpfx, dty, dn⟩
        st.mq st.pq with
    | error e => rw [hv, except_bind_error] at h; cases h
    | ok pq' =>
      rw [hv, except_bind_ok] at h
      cases h
      rw [verify_create_rule_ok _ hv]
      exact ⟨le_refl _, pySetDiff_length_le _ _⟩
  case materials.deleteT =>
    cases hv : verify_delete_rule ⟨RuleType.deleteT, pat, spfx, dpfx, dty, dn⟩
        st.mq st.pq with
    | error e => rw [hv, except_bind_error] at h; cases h
    | ok mq' =>
      rw [hv, except_bind_ok] at h
      cases h
      rw [verify_delete_rule_ok _ hv]
      exact ⟨pySetDiff_length_le _ _, le_refl _⟩
  case products.deleteT =>
    cases hv : verify_delete_rule ⟨RuleType.deleteT, pat, spfx, dpfx, dty, dn⟩
        st.mq st.pq with
    | error e => rw [hv, except_bind_error] at h; cases h
    | ok mq' =>
      rw [hv, except_bind_ok] at h
      cases h
      rw [verify_delete_rule_ok _ hv]
      exact ⟨pySetDiff_length_le _ _, le_refl _⟩
  case materials.modifyT =>
    cases hv : verify_modify_rule ⟨RuleType.modifyT, pat, spfx, dpfx, dty, dn⟩
        st.mq st.pq sm sp with
    | error e => rw [hv, except_bind_error] at h; cases h
    | ok mp =>
      obtain ⟨mq2, pq2⟩ := mp
      rw [hv, except_bind_ok] at h
      cases h
      obtain ⟨h1, h2⟩ := verify_modify_rule_ok _ hv
      rw [h1, h2]
      exact ⟨pySetDiff_length_le _ _, pySetDiff_length_le _ _⟩
  case products.modifyT =>
    cases hv : verify_modify_rule ⟨RuleType.modifyT, pat, spfx, dpfx, dty, dn⟩
        st.mq st.pq sm sp with
    | error e => rw [hv, except_bind_error] at h; cases h
    | ok mp =>
      obtain ⟨mq2, pq2⟩ := mp
      rw [hv, except_bind_ok] at h
      cases h
      obtain ⟨h1, h2⟩ := verify_modify_rule_ok _ hv
      rw [h1, h2]
      exact ⟨pySetDiff_length_le _ _, pySetDiff_length_le _ _⟩

/-- Witness for the amended C6: the ALLOW application of the
counterexample run does not grow the materials or products queues. -/
theorem c6_amended_witness :
    (["a", "b"] : List String).length ≤ (["a", "b"] : List String).length ∧
      ([] : List String).length ≤ ([] : List String).length :=
  c6_specific_queues_non_increasing SType.materials linksItem
    linkItem.materials linkItem.products
    { mq := ["a", "b"], pq := [], detached := none }
    { mq := ["a", "b"], pq := [], detached := some ["b"] } rdAllowA rfl

/-- C7: `verify_item_rules` performs no check after the rule loop —
when the item's link is present, the source type is valid, and every
rule passes (the fold over the rules succeeds), the function returns
normally, even when the artifacts queue is still non-empty: leftover
unmatched artifacts alone never fail verification. -/
theorem c7_verify_item_rules_ignores_leftover_queue
    (source_name source_type : String) (rules : List RuleData)
    (links : List (String × Link)) (lnk : Link) (stype : SType) (st : RQState)
    (hlink : dlookup source_name links = some lnk)
    (hstype : source_type = "materials" ∧ stype = SType.materials ∨
      source_type = "products" ∧ stype = SType.products)
    (hfold : rules.foldlM (applyRule stype links lnk.materials lnk.products)
        { mq := lnk.materials.map Prod.fst, pq := lnk.products.map Prod.fst,
          detached := none } = Except.ok st)
    (hleft : artifactsQueue stype st ≠ []) :
    verify_item_rules source_name source_type rules links = Except.ok st := by
  rcases hstype with ⟨hs, ht⟩ | ⟨hs, ht⟩
  · subst hs
    subst ht
    simp only [verify_item_rules, hlink, except_bind_ok]
    rw [if_pos trivial]
    exact hfold
  · subst hs
    subst ht
    simp only [verify_item_rules, hlink, except_bind_ok]
    rw [if_pos trivial]
    exact hfold

/-- Witness for C7: the ALLOW rule passes, the artifacts queue still
holds the unmatched path `a`, and `verify_item_rules` succeeds. -/
theorem c7_witness :
    verify_item_rules ("it") ("materials") [rdAllowB] linksItem =
      Except.ok { mq := ["a", "b"], pq := [], detached := some ["a"] } :=
  c7_verify_item_rules_ignores_leftover_queue ("it") ("materials") [rdAllowB]
    linksItem linkItem SType.materials
    { mq := ["a", "b"], pq := [], detached := some ["a"] }
    rfl (Or.inl ⟨rfl, rfl⟩) rfl (by decide)

theorem raise_on_bad_retval_error_of (v : Option PyVal)
    (h : (∀ n : Int, v ≠ some (PyVal.int n)) ∨
      ∃ n : Int, n ≠ 0 ∧ v = some (PyVal.int n)) :
    raise_on_bad_retval v = Except.error VError.badReturn := by
  rcases h with h | ⟨n, hn, hv⟩
  · cases v with
    | none => rfl
    | some pv =>
      cases pv with
      | int n => exact absurd rfl (h n)
      | str s => rfl
  · subst hv
    simp [raise_on_bad_retval, hn]

theorem runInspStep_ok_of (runner : Inspection → Link)
    (acc : List (String × Link)) (i : Inspection)
    (h : retVal (runner i) = some (PyVal.int 0)) :
    runInspStep runner acc i = Except.ok (acc ++ [(i.name, runner i)]) := by
  unfold retVal at h
  simp [runInspStep, h, raise_on_bad_retval, except_bind_ok]

theorem runInspStep_bad_of (runner : Inspection → Link)
    (acc : List (String × Link)) (i : Inspection)
    (h : raise_on_bad_retval (retVal (runner i)) = Except.error VError.badReturn) :
    runInspStep runner acc i = Except.error VError.badReturn := by
  unfold retVal at h
  simp [runInspStep, h, except_bind_error]

theorem runInsp_fold_all_zero (runner : Inspection → Link)
    (l : List Inspection) :
    ∀ acc, (∀ i ∈ l, retVal (runner i) = some (PyVal.int 0)) →
      l.foldlM (runInspStep runner) acc =
        Except.ok (acc ++ l.map (fun i => (i.name, runner i))) := by
  induction l with
  | nil =>
    intro acc _
    simp only [List.foldlM_nil, List.map_nil, List.append_nil]
    rfl
  | cons a t ih =>
    intro acc hall
    rw [List.foldlM_cons,
      runInspStep_ok_of runner acc a (hall a (List.mem_cons_self a t)),
      except_bind_ok,
      ih _ (fun i hi => hall i (List.mem_cons_of_mem a hi))]
    simp

theorem runInsp_fold_bad (runner : Inspection → Link)
    (pre : List Inspection) (insp : Inspection) (post : List Inspection) :
    ∀ acc, (∀ i ∈ pre, retVal (runner i) = some (PyVal.int 0)) →
      raise_on_bad_retval (retVal (runner insp)) = Except.error VError.badReturn →
      (pre ++ insp :: post).foldlM (runInspStep runner) acc =
        Except.error VError.badReturn := by
  induction pre with
  | nil =>
    intro acc _ hbad
    rw [List.nil_append, List.foldlM_cons,
      runInspStep_bad_of runner acc insp hbad, except_bind_error]
  | cons a t ih =>
    intro acc hall hbad
    rw [List.cons_append, List.foldlM_cons,
      runInspStep_ok_of runner acc a (hall a (List.mem_cons_self a t)),
      except_bind_ok]
    exact ih _ (fun i hi => hall i (List.mem_cons_of_mem a hi)) hbad

/-- C8: inspections run in declared order; the first one whose link
reports a return value that is not an integer or is a non-zero integer
aborts `run_all_inspections` with the bad-return error — for *any*
inspections declared after it, whose links are never consulted — and
the inspection phase then fails before any inspection rule is
evaluated; when every inspection returns the integer zero, no error
is raised and every link is accumulated into the inspection-link map
under its inspection's name. -/
theorem c8_inspections_abort_or_accumulate (runner : Inspection → Link)
    (layout : Layout) (reduced : List (String × Link)) :
    (∀ pre insp post, layout.inspect = pre ++ insp :: post →
      (∀ i ∈ pre, retVal (runner i) = some (PyVal.int 0)) →
      ((∀ n : Int, retVal (runner insp) ≠ some (PyVal.int n)) ∨
        ∃ n : Int, n ≠ 0 ∧ retVal (runner insp) = some (PyVal.int n)) →
      run_all_inspections runner layout = Except.error VError.badReturn ∧
        inspectionPhase runner layout reduced = Except.error VError.badReturn) ∧
    ((∀ i ∈ layout.inspect, retVal (runner i) = some (PyVal.int 0)) →
      run_all_inspections runner layout =
        Except.ok (layout.inspect.map (fun i => (i.name, runner i)))) := by
  constructor
  · intro pre insp post hsplit hpre hbad
    have hrun : run_all_inspections runner layout =
        Except.error VError.badReturn := by
      unfold run_all_inspections
      rw [hsplit]
      exact runInsp_fold_bad runner pre insp post [] hpre
        (raise_on_bad_retval_error_of _ hbad)
    refine ⟨hrun, ?_⟩
    unfold inspectionPhase
    rw [hrun, except_bind_error]
  · intro hall
    unfold run_all_inspections
    rw [runInsp_fold_all_zero runner layout.inspect [] hall]
    simp

/-- Witness for C8: inspection `bad` (return value 2) declared between
`good` and `after` aborts both the inspection run and the inspection
phase; the all-good single-inspection layout accumulates its link. -/
theorem c8_witness :
    run_all_inspections runnerEx layoutInsp = Except.error VError.badReturn ∧
      inspectionPhase runnerEx layoutInsp [] = Except.error VError.badReturn ∧
      run_all_inspections runnerEx layoutInspOk =
        Except.ok [("good", linkRet0)] := by
  have h1 := (c8_inspections_abort_or_accumulate runnerEx layoutInsp []).1
    [inspGood] inspBad [inspAfter] rfl (by decide) (Or.inr ⟨2, by decide, rfl⟩)
  have h2 := (c8_inspections_abort_or_accumulate runnerEx layoutInspOk []).2
    (by decide)
  refine ⟨h1.1, h1.2, ?_⟩
  rw [h2]
  rfl

/-- C10: when an inspection's link lacks the `return-value` byproduct,
`byproducts.get` yields `None`, which fails the `isinstance(_, int)`
check, so `run_all_inspections` raises the bad-return error instead of
accepting the inspection. -/
theorem c10_missing_return_value_rejected (runner : Inspection → Link)
    (layout : Layout) (pre : List Inspection) (insp : Inspection)
    (post : List Inspection)
    (hsplit : layout.inspect = pre ++ insp :: post)
    (hpre : ∀ i ∈ pre, retVal (runner i) = some (PyVal.int 0))
    (habs : retVal (runner insp) = none) :
    run_all_inspections runner layout = Except.error VError.badReturn := by
  unfold run_all_inspections
  rw [hsplit]
  refine runInsp_fold_bad runner pre insp post [] hpre ?_
  rw [habs]
  rfl

/-- Witness for C10: the inspection `noret`, whose link has no
`return-value` byproduct, is rejected. -/
theorem c10_witness :
    run_all_inspections runnerEx layoutInspNoRet =
      Except.error VError.badReturn :=
  c10_missing_return_value_rejected runnerEx layoutInspNoRet
    [inspGood] inspNoRet [] rfl (by decide) rfl

end InToto
